import Mathlib

/-!
A shallow embedding of the validation-gated sessionization and aggregation
pipeline (scripts/data_validation.py, scripts/etl_pipeline.py,
scripts/generate_events.py) together with proofs about the properties the
specification states for it.

Modelling conventions:
* timestamps are integer epoch seconds (`Int`); `pandas` calendar dates are
  floor division by 86400;
* money and rates are exact rationals (`ℚ`); a `pandas` division whose result
  would be non-finite (division by zero giving inf or NaN) is modelled as
  `Option ℚ` with value `none`;
* DataFrames are lists of records plus, where column structure matters, an
  explicit column-name list; in-place mutation is explicit state passing;
* fallible Python code (raising) is `Except`.
-/

/-- Raw input for the `properties` field of an event record: a native mapping,
a JSON string that decodes to a mapping, or a JSON string that fails to decode
(`json.loads` raising in `EventSchema.parse_properties`). The decoded contents
never influence validation, so they are not carried. -/
inductive PropsInput where
  | dict
  | jsonGood
  | jsonBad
  deriving DecidableEq

/-- Raw input for the `timestamp` field: a datetime instant, an ISO-8601
string resolving to an instant (`EventSchema.parse_timestamp`), or an
unparseable string. -/
inductive TsInput where
  | instant (t : Int)
  | isoStr (t : Int)
  | badStr
  deriving DecidableEq

/-- The instant a raw timestamp resolves to, `none` when parsing fails. -/
def resolveTs : TsInput → Option Int
  | .instant t => some t
  | .isoStr t => some t
  | .badStr => none

/-- `properties` passes validation when it is a mapping or decodes to one. -/
def propsOk : PropsInput → Bool
  | .dict => true
  | .jsonGood => true
  | .jsonBad => false

/-- A raw event record as handed to the Validator: every field may be absent
(`None` / missing key in the row dictionary). -/
structure RawEvent where
  event_id : Option String
  event_type : Option String
  user_id : Option String
  session_id : Option String
  timestamp : Option TsInput
  properties : Option PropsInput
  device : Option String
  country : Option String
  traffic_source : Option String
  product_id : Option String
  category : Option String
  revenue : Option ℚ
  deriving DecidableEq

/-- Upper-case hexadecimal digit, as matched by the character class
`[A-F0-9]` of the identifier patterns in `data_validation.py`. -/
def isUpperHex (c : Char) : Bool :=
  c.isDigit || (decide ('A' ≤ c) && decide (c ≤ 'F'))

/-- The anchored identifier patterns of `EventSchema`: a fixed marker followed
by exactly `hexLen` upper-case hexadecimal characters. -/
def idShaped (pre : String) (hexLen : Nat) (s : String) : Bool :=
  decide (s.data.take pre.data.length = pre.data)
    && (s.data.length == pre.data.length + hexLen)
    && (s.data.drop pre.data.length).all isUpperHex

/-- The closed `event_type` enumeration (`EventTypeEnum`). -/
def eventTypes : List String :=
  ["page_view", "product_view", "add_to_cart", "remove_from_cart",
   "begin_checkout", "purchase", "search", "signup", "login"]

/-- The closed `device` enumeration (`DeviceType`). -/
def deviceTypes : List String := ["mobile", "desktop", "tablet"]

/-- The closed `traffic_source` enumeration (`TrafficSource`). -/
def trafficSources : List String :=
  ["organic", "paid_search", "social", "email", "direct", "referral"]

/-- An optional field is valid when absent or when its value passes `check`. -/
def optOk (check : String → Bool) : Option String → Bool
  | none => true
  | some s => check s

/-- `country`: optional, exactly two characters when present. -/
def countryOk : Option String → Bool
  | none => true
  | some s => s.length == 2

/-- `revenue`: optional (defaults to 0), must lie in `[0, 100000]`. -/
def revenueOk : Option ℚ → Bool
  | none => true
  | some r => decide (0 ≤ r) && decide (r ≤ 100000)

/-- A validated event, the result of a successful `EventSchema` construction
(`model_dump` row of the validated DataFrame). -/
structure EventSchema where
  event_id : String
  event_type : String
  user_id : String
  session_id : String
  timestamp : Int
  properties : PropsInput
  device : Option String
  country : Option String
  traffic_source : Option String
  product_id : Option String
  category : Option String
  revenue : ℚ
  deriving DecidableEq

/-- Validation of one raw record against `EventSchema` from
`data_validation.py`: all required fields must be present, identifiers must
match their anchored patterns and length bounds, `event_type` / `device` /
`traffic_source` must belong to their closed enumerations, `timestamp` must
resolve to an instant, `properties` must decode to a mapping, `country` must
have exactly two characters, and `revenue` (defaulting to 0) must lie in
`[0, 100000]`. A pydantic failure surfaces as an exception whose class name is
`ValidationError`; that name is the error kind recorded by `validate_events`. -/
def validateRecord (r : RawEvent) : Except String EventSchema :=
  match r.event_id, r.event_type, r.user_id, r.session_id,
        r.timestamp, r.properties with
  | some eid, some ety, some uid, some sid, some tsi, some pin =>
    match resolveTs tsi with
    | some ts =>
      if idShaped "EVT_" 16 eid
          && decide (20 ≤ eid.length) && decide (eid.length ≤ 24)
          && eventTypes.contains ety
          && idShaped "USER_" 12 uid && (uid.length == 17)
          && idShaped "SES_" 16 sid
          && decide (20 ≤ sid.length) && decide (sid.length ≤ 24)
          && propsOk pin
          && optOk (fun d => deviceTypes.contains d) r.device
          && countryOk r.country
          && optOk (fun s => trafficSources.contains s) r.traffic_source
          && optOk (idShaped "PROD_" 8) r.product_id
          && revenueOk r.revenue
      then .ok { event_id := eid, event_type := ety, user_id := uid,
                 session_id := sid, timestamp := ts, properties := pin,
                 device := r.device, country := r.country,
                 traffic_source := r.traffic_source, product_id := r.product_id,
                 category := r.category, revenue := r.revenue.getD 0 }
      else .error "ValidationError"
    | none => .error "ValidationError"
  | _, _, _, _, _, _ => .error "ValidationError"

/-- `ValidationResult` from `data_validation.py` (the validation timestamp,
pure metadata, is omitted). `error_summary` is the mapping from error kind to
occurrence count, as an association list. -/
structure ValidationResult where
  total_records : Nat
  valid_records : Nat
  invalid_records : Nat
  error_summary : List (String × Nat)
  deriving DecidableEq

/-- `ValidationResult.validity_rate`: percentage of valid records, 0 when the
batch is empty. -/
def ValidationResult.validity_rate (r : ValidationResult) : ℚ :=
  if r.total_records = 0 then 0
  else (r.valid_records : ℚ) / (r.total_records : ℚ) * 100

/-- Increment the count stored under key `k` in an association list,
inserting the key with count 1 when absent
(`error_summary[error_type] = error_summary.get(error_type, 0) + 1`). -/
def bumpCount (k : String) : List (String × Nat) → List (String × Nat)
  | [] => [(k, 1)]
  | (k2, n) :: rest =>
    if k2 = k then (k2, n + 1) :: rest else (k2, n) :: bumpCount k rest

/-- Record one more collected sample for error kind `k`, capped at `cap`
samples per kind (`if len(error_samples[error_type]) < sample_errors`).
Only the number of collected samples is modelled. -/
def addSample (cap : Nat) (k : String) :
    List (String × Nat) → List (String × Nat)
  | [] => [(k, if 0 < cap then 1 else 0)]
  | (k2, n) :: rest =>
    if k2 = k then (k2, if n < cap then n + 1 else n) :: rest
    else (k2, n) :: addSample cap k rest

/-- Accumulated state of the `validate_events` loop after some records. -/
structure VLoopOut where
  valids : List EventSchema
  invalid : Nat
  summary : List (String × Nat)
  samples : List (String × Nat)
  deriving DecidableEq

/-- The record loop of `validate_events`: validate each row; on success append
it to the valid list; on failure count it, update the error summary and the
capped samples, then re-raise when `raiseOnError` is set, otherwise continue
with the remaining records. -/
def validateLoop (raiseOnError : Bool) (cap : Nat) :
    List RawEvent → VLoopOut → Except String VLoopOut
  | [], acc => .ok acc
  | r :: rest, acc =>
    match validateRecord r with
    | .ok e =>
      validateLoop raiseOnError cap rest { acc with valids := acc.valids ++ [e] }
    | .error k =>
      if raiseOnError then .error k
      else
        validateLoop raiseOnError cap rest
          { acc with invalid := acc.invalid + 1,
                     summary := bumpCount k acc.summary,
                     samples := addSample cap k acc.samples }

/-- `validate_events` from `data_validation.py`: validate every row of the
input, returning the DataFrame of valid rows, the `ValidationResult`, and the
per-kind counts of collected error samples. An `.error` result models the
re-raised exception under `raise_on_error=True`. -/
def validate_events (df : List RawEvent) (raiseOnError : Bool) (cap : Nat) :
    Except String (List EventSchema × ValidationResult × List (String × Nat)) :=
  match validateLoop raiseOnError cap df ⟨[], 0, [], []⟩ with
  | .error k => .error k
  | .ok out =>
    .ok (out.valids,
         { total_records := df.length, valid_records := out.valids.length,
           invalid_records := out.invalid, error_summary := out.summary },
         out.samples)

/-- Per-user open-session state of the event generator
(`EventGenerator.active_sessions[user_id]`); the generated session identifier
is modelled as a number (`uuid4` freshness becomes an explicit argument of the
transition). The cart contents do not influence sessionization and are
omitted. -/
structure SessionState where
  session_id : Nat
  start_time : Int
  last_activity : Int
  event_count : Nat
  deriving DecidableEq

/-- Lookup in the per-user session mapping, modelled as an association list. -/
def lookupSession (uid : String) :
    List (String × SessionState) → Option SessionState
  | [] => none
  | (u, s) :: rest => if u = uid then some s else lookupSession uid rest

/-- Write-through update of the per-user session mapping. -/
def setSession (uid : String) (st : SessionState) :
    List (String × SessionState) → List (String × SessionState)
  | [] => [(uid, st)]
  | (u, s) :: rest =>
    if u = uid then (u, st) :: rest else (u, s) :: setSession uid st rest

/-- `EventGenerator.session_timeout_minutes`, set to 30 in `__init__`. -/
def sessionTimeoutMinutesDefault : Int := 30

/-- `EventGenerator._get_or_create_session` from `generate_events.py`: when
the user has a tracked session whose gap to the new event is under
`timeoutMinutes * 60` seconds, attach to it (updating its last activity and
event count); otherwise create a fresh session for the user. Returns the
session identifier assigned to the event and the updated session mapping. -/
def getOrCreateSession (timeoutMinutes : Int)
    (active : List (String × SessionState)) (uid : String) (t : Int)
    (fresh : Nat) : Nat × List (String × SessionState) :=
  match lookupSession uid active with
  | some s =>
    if t - s.last_activity < timeoutMinutes * 60 then
      (s.session_id,
       setSession uid
         { s with last_activity := t, event_count := s.event_count + 1 } active)
    else
      (fresh, setSession uid ⟨fresh, t, t, 1⟩ active)
  | none => (fresh, setSession uid ⟨fresh, t, t, 1⟩ active)

/-- A pandas division: `none` models the non-finite result (inf or NaN) that a
zero denominator produces. -/
def pdDiv (a b : ℚ) : Option ℚ := if b = 0 then none else some (a / b)

/-- `.dt.date` on an epoch-second timestamp: the calendar day index. -/
def eventDate (t : Int) : Int := Int.fdiv t 86400

/-- The `(session_id, user_id)` grouping key of the session aggregation. -/
def sessionKey (e : EventSchema) : String × String := (e.session_id, e.user_id)

/-- The distinct session grouping keys of a batch. -/
def sessionKeys (rows : List EventSchema) : List (String × String) :=
  (rows.map sessionKey).dedup

/-- The rows of one session group. -/
def sessionGroup (rows : List EventSchema) (k : String × String) :
    List EventSchema :=
  rows.filter (fun e => decide (sessionKey e = k))

/-- Group minimum timestamp (`agg("min")`); 0 on the empty list, which never
occurs for an actual group. -/
def minTs : List Int → Int
  | [] => 0
  | t :: ts => ts.foldl min t

/-- Group maximum timestamp (`agg("max")`). -/
def maxTs : List Int → Int
  | [] => 0
  | t :: ts => ts.foldl max t

/-- `(x == ty).sum()` over the `event_type` column of a group. -/
def countType (ty : String) (g : List EventSchema) : Nat :=
  (g.filter (fun e => decide (e.event_type = ty))).length

/-- `agg(("revenue", "sum"))` over a group. -/
def sumRevenue (g : List EventSchema) : ℚ := (g.map (fun e => e.revenue)).sum

/-- pandas `first` aggregation: the first non-null value of the column. -/
def firstSome (l : List (Option String)) : Option String :=
  (l.filterMap id).head?

/-- `nunique` over an optional column (pandas ignores nulls). -/
def nuniqueOpt (l : List (Option String)) : Nat := ((l.filterMap id).dedup).length

/-- One row of `fct_sessions`. -/
structure SessionRow where
  session_id : String
  user_id : String
  session_start : Int
  session_end : Int
  event_count : Nat
  page_views : Nat
  product_views : Nat
  add_to_carts : Nat
  purchases : Nat
  total_revenue : ℚ
  unique_products : Nat
  countries : Option String
  devices : Option String
  session_duration_seconds : Int
  is_converted : Bool
  deriving DecidableEq

/-- The `fct_sessions` aggregation of one `(session_id, user_id)` group, from
`ETLPipeline._transform`. -/
def mkSessionRow (k : String × String) (g : List EventSchema) : SessionRow :=
  { session_id := k.1, user_id := k.2,
    session_start := minTs (g.map (fun e => e.timestamp)),
    session_end := maxTs (g.map (fun e => e.timestamp)),
    event_count := g.length,
    page_views := countType "page_view" g,
    product_views := countType "product_view" g,
    add_to_carts := countType "add_to_cart" g,
    purchases := countType "purchase" g,
    total_revenue := sumRevenue g,
    unique_products := nuniqueOpt (g.map (fun e => e.product_id)),
    countries := firstSome (g.map (fun e => e.country)),
    devices := firstSome (g.map (fun e => e.device)),
    session_duration_seconds :=
      maxTs (g.map (fun e => e.timestamp)) - minTs (g.map (fun e => e.timestamp)),
    is_converted := decide (0 < countType "purchase" g) }

/-- The `fct_sessions` table: one row per distinct `(session_id, user_id)`
pair of the batch. (pandas emits group keys in sorted order; the key order is
not load-bearing for any property proved here.) -/
def fct_sessions (rows : List EventSchema) : List SessionRow :=
  (sessionKeys rows).map (fun k => mkSessionRow k (sessionGroup rows k))

/-- One row of `fct_daily_metrics`. The two ratios are pandas divisions. -/
structure DailyRow where
  event_date : Int
  total_events : Nat
  unique_users : Nat
  unique_sessions : Nat
  page_views : Nat
  product_views : Nat
  add_to_carts : Nat
  purchases : Nat
  total_revenue : ℚ
  conversion_rate : Option ℚ
  avg_revenue_per_user : Option ℚ
  deriving DecidableEq

/-- The distinct event dates of the batch. -/
def dailyDates (rows : List EventSchema) : List Int :=
  (rows.map (fun e => eventDate e.timestamp)).dedup

/-- The events of the batch falling on one calendar date. -/
def dailyGroup (rows : List EventSchema) (d : Int) : List EventSchema :=
  rows.filter (fun e => decide (eventDate e.timestamp = d))

/-- The `fct_daily_metrics` aggregation of one date group:
`conversion_rate = purchases / unique_sessions` and
`avg_revenue_per_user = total_revenue / unique_users`, both plain pandas
divisions with no zero-denominator guard. -/
def mkDailyRow (d : Int) (g : List EventSchema) : DailyRow :=
  { event_date := d, total_events := g.length,
    unique_users := ((g.map (fun e => e.user_id)).dedup).length,
    unique_sessions := ((g.map (fun e => e.session_id)).dedup).length,
    page_views := countType "page_view" g,
    product_views := countType "product_view" g,
    add_to_carts := countType "add_to_cart" g,
    purchases := countType "purchase" g,
    total_revenue := sumRevenue g,
    conversion_rate :=
      pdDiv (countType "purchase" g)
        (((g.map (fun e => e.session_id)).dedup).length),
    avg_revenue_per_user :=
      pdDiv (sumRevenue g) (((g.map (fun e => e.user_id)).dedup).length) }

/-- The `fct_daily_metrics` table: one row per calendar date present in the
batch, grouped by the date of each event. -/
def fct_daily_metrics (rows : List EventSchema) : List DailyRow :=
  (dailyDates rows).map (fun d => mkDailyRow d (dailyGroup rows d))

/-- One row of `fct_product_performance`. -/
structure ProductRow where
  product_id : String
  category : String
  view_count : Nat
  cart_adds : Nat
  purchases : Nat
  total_revenue : ℚ
  unique_viewers : Nat
  cart_rate : Option ℚ
  purchase_rate : Option ℚ
  deriving DecidableEq

/-- `df[df["product_id"].notna()]`. -/
def productEvents (rows : List EventSchema) : List EventSchema :=
  rows.filter (fun e => e.product_id.isSome)

/-- The `(product_id, category)` grouping key; pandas drops rows whose key has
a null component from every group. -/
def productKey (e : EventSchema) : Option (String × String) :=
  match e.product_id, e.category with
  | some p, some c => some (p, c)
  | _, _ => none

/-- The distinct product grouping keys of the batch. -/
def productKeys (rows : List EventSchema) : List (String × String) :=
  ((productEvents rows).filterMap productKey).dedup

/-- The rows of one product group. -/
def productGroup (rows : List EventSchema) (k : String × String) :
    List EventSchema :=
  rows.filter (fun e => decide (productKey e = some k))

/-- `view_count.replace(0, 1)`: the denominator substitution applied before
the `cart_rate` and `purchase_rate` divisions. -/
def replace0 (n : Nat) : Nat := if n = 0 then 1 else n

/-- The `fct_product_performance` aggregation of one `(product_id, category)`
group: `cart_rate = cart_adds / view_count.replace(0, 1)` and
`purchase_rate = purchases / view_count.replace(0, 1)`. -/
def mkProductRow (k : String × String) (g : List EventSchema) : ProductRow :=
  { product_id := k.1, category := k.2,
    view_count := countType "product_view" g,
    cart_adds := countType "add_to_cart" g,
    purchases := countType "purchase" g,
    total_revenue := sumRevenue g,
    unique_viewers := ((g.map (fun e => e.user_id)).dedup).length,
    cart_rate :=
      pdDiv (countType "add_to_cart" g) (replace0 (countType "product_view" g)),
    purchase_rate :=
      pdDiv (countType "purchase" g) (replace0 (countType "product_view" g)) }

/-- The `fct_product_performance` table, emitted only when the batch has at
least one event carrying a `product_id` (`if len(product_events) > 0`);
`none` models the absent table. -/
def fct_product_performance (rows : List EventSchema) :
    Option (List ProductRow) :=
  if 0 < (productEvents rows).length then
    some ((productKeys rows).map (fun k => mkProductRow k (productGroup rows k)))
  else none

/-- One row of `fct_events`: the event enriched with calendar columns. -/
structure FctEventsRow where
  event : EventSchema
  event_date : Int
  event_hour : Int
  day_of_week : Int
  is_weekend : Bool
  deriving DecidableEq

/-- The `fct_events` enrichment of one event. Monday is day 0 as in pandas;
the epoch day (day index 0) is a Thursday, hence the offset 3. -/
def mkFctEventsRow (e : EventSchema) : FctEventsRow :=
  { event := e,
    event_date := eventDate e.timestamp,
    event_hour := Int.fdiv (Int.emod e.timestamp 86400) 3600,
    day_of_week := Int.emod (eventDate e.timestamp + 3) 7,
    is_weekend := decide (Int.emod (eventDate e.timestamp + 3) 7 = 5)
      || decide (Int.emod (eventDate e.timestamp + 3) 7 = 6) }

/-- The four transformed tables produced by `ETLPipeline._transform`. -/
structure TransformTables where
  fct_events : List FctEventsRow
  fct_sessions : List SessionRow
  fct_daily_metrics : List DailyRow
  fct_product_performance : Option (List ProductRow)
  deriving DecidableEq

/-- The table computations of `ETLPipeline._transform` as a function of the
validated rows. -/
def transformTables (rows : List EventSchema) : TransformTables :=
  { fct_events := rows.map mkFctEventsRow,
    fct_sessions := fct_sessions rows,
    fct_daily_metrics := fct_daily_metrics rows,
    fct_product_performance := fct_product_performance rows }

/-- A pandas DataFrame with its column list made explicit, for reasoning about
in-place column mutation. -/
structure DataFrame where
  rows : List EventSchema
  cols : List String
  deriving DecidableEq

/-- The columns of the validated DataFrame: the `model_dump` fields of
`EventSchema`, in declaration order. -/
def eventSchemaCols : List String :=
  ["event_id", "event_type", "user_id", "session_id", "timestamp",
   "properties", "device", "country", "traffic_source", "product_id",
   "category", "revenue"]

/-- The DataFrame of validated rows handed from `_validate` to `_transform`. -/
def validatedDF (rows : List EventSchema) : DataFrame :=
  { rows := rows, cols := eventSchemaCols }

/-- In-place column assignment `df[c] = ...`: appends the column when absent,
overwrites it (leaving the schema unchanged) when present. -/
def setCol (df : DataFrame) (c : String) : DataFrame :=
  { df with cols := if c ∈ df.cols then df.cols else df.cols ++ [c] }

/-- `ETLPipeline._transform` with its frame effect explicit: the method first
assigns `df["timestamp"]` (coercing to datetime, a value-level change on an
existing column) and later assigns `df["event_date"]` on the same object, so
it returns the tables together with the mutated state of its argument. -/
def ETLPipeline.transformDF (df : DataFrame) : TransformTables × DataFrame :=
  (transformTables df.rows, setCol (setCol df "timestamp") "event_date")

/-- The names (dictionary keys) of the transformed tables, in the insertion
order `_transform` creates them; the product table is present only when some
event carries a `product_id`. -/
def tableNames (rows : List EventSchema) : List String :=
  ["fct_events", "fct_sessions", "fct_daily_metrics"]
    ++ (if 0 < (productEvents rows).length
        then ["fct_product_performance"] else [])

/-- Rows across all transformed tables, the value `total_loaded` reaches when
every write succeeds. -/
def totalLoadedRows (rows : List EventSchema) : Nat :=
  rows.length + (sessionKeys rows).length + (dailyDates rows).length
    + (match fct_product_performance rows with
       | some t => t.length
       | none => 0)

/-- The write loop of `ETLPipeline._load`: writes each table in order to its
final name; `writeOk` models the storage collaborator accepting or failing a
write. Returns the tables committed under their final names and, when some
write fails, the error (named by the failing table); tables written before the
failure stay committed. -/
def loadTables (writeOk : String → Bool) :
    List String → List String × Option String
  | [] => ([], none)
  | t :: ts =>
    if writeOk t then
      ((loadTables writeOk ts).1.cons t, (loadTables writeOk ts).2)
    else ([], some t)

/-- `PipelineConfig` (the fields the claims touch). -/
structure PipelineConfig where
  min_validity_rate : ℚ
  enable_quality_checks : Bool
  deriving DecidableEq

/-- The default `min_validity_rate`. -/
def defaultMinValidityRate : ℚ := 95

/-- The error message of the validity-threshold gate (the Python message also
interpolates the two rates; the numbers are not load-bearing). -/
def thresholdBreachMsg : String := "validity rate below threshold"

/-- The end state of one pipeline run: terminal status, the stages that
executed, the recorded errors, the tables committed under their final names,
and the collected metrics. -/
structure RunOutcome where
  success : Bool
  stages : List String
  errors : List String
  written_tables : List String
  records_extracted : Nat
  records_validated : Nat
  validity_rate : ℚ
  records_loaded : Nat
  deriving DecidableEq

/-- `ETLPipeline.run` from `etl_pipeline.py`: extract all partitions (failing
when none exist), validate, enforce the validity-rate gate (raising before the
quality-check, transform and load stages), then transform and load; any raised
exception is recorded in the metrics and the run reports failure. The quality
check stage is observational and never alters control flow. -/
def ETLPipeline.run (cfg : PipelineConfig) (writeOk : String → Bool)
    (partitions : List (List RawEvent)) : RunOutcome :=
  if partitions.isEmpty then
    { success := false, stages := ["extract"],
      errors := ["no event files found"], written_tables := [],
      records_extracted := 0, records_validated := 0, validity_rate := 0,
      records_loaded := 0 }
  else
    let raw := partitions.flatten
    match validate_events raw false 5 with
    | .error k =>
      { success := false, stages := ["extract", "validate"], errors := [k],
        written_tables := [], records_extracted := raw.length,
        records_validated := 0, validity_rate := 0, records_loaded := 0 }
    | .ok (vdf, res, _) =>
      if res.validity_rate < cfg.min_validity_rate then
        { success := false, stages := ["extract", "validate"],
          errors := [thresholdBreachMsg], written_tables := [],
          records_extracted := raw.length,
          records_validated := res.valid_records,
          validity_rate := res.validity_rate, records_loaded := 0 }
      else
        match loadTables writeOk (tableNames vdf) with
        | (w, some m) =>
          { success := false,
            stages := ["extract", "validate", "quality", "transform", "load"],
            errors := [m], written_tables := w,
            records_extracted := raw.length,
            records_validated := res.valid_records,
            validity_rate := res.validity_rate, records_loaded := 0 }
        | (w, none) =>
          { success := true,
            stages := ["extract", "validate", "quality", "transform", "load"],
            errors := [], written_tables := w,
            records_extracted := raw.length,
            records_validated := res.valid_records,
            validity_rate := res.validity_rate,
            records_loaded := totalLoadedRows vdf }

/-- Total number of failures recorded across an error summary. -/
def sumCounts (l : List (String × Nat)) : Nat := (l.map (fun p => p.2)).sum

/-- The calendar date a session group is booked under when `fct_sessions` rows
are grouped by session-start date (the session start being the group minimum
timestamp). -/
def sessionStartDate (rows : List EventSchema) (k : String × String) : Int :=
  eventDate (minTs ((sessionGroup rows k).map (fun e => e.timestamp)))

/-- Total `fct_sessions.total_revenue` over the sessions whose `session_start`
falls on date `d`: the left-hand side of the reconciliation property. -/
def sessionsRevenueOn (rows : List EventSchema) (d : Int) : ℚ :=
  (((fct_sessions rows).filter
      (fun s => decide (eventDate s.session_start = d))).map
    (fun s => s.total_revenue)).sum

/-- A fully valid raw record; note it carries an upstream `session_id`, as
every record produced by the generator does. -/
def rawValid1 : RawEvent :=
  { event_id := some "EVT_0123456789ABCDEF", event_type := some "page_view",
    user_id := some "USER_0123456789AB",
    session_id := some "SES_0123456789ABCDEF",
    timestamp := some (.instant 0), properties := some .dict,
    device := some "mobile", country := some "US",
    traffic_source := some "organic", product_id := none, category := none,
    revenue := some 0 }

/-- A second valid raw record. -/
def rawValid2 : RawEvent := { rawValid1 with event_id := some "EVT_0000000000000002" }

/-- A third valid raw record. -/
def rawValid3 : RawEvent := { rawValid1 with event_id := some "EVT_0000000000000003" }

/-- A fourth valid raw record. -/
def rawValid4 : RawEvent := { rawValid1 with event_id := some "EVT_0000000000000004" }

/-- An invalid raw record: the required `event_id` is missing. -/
def rawMissingEventId : RawEvent := { rawValid1 with event_id := none }

/-- A record identical to `rawValid1` except that it lacks `session_id`. -/
def rawNoSession : RawEvent := { rawValid1 with session_id := none }

/-- The validated image of `rawValid1`. -/
def evValid1 : EventSchema :=
  { event_id := "EVT_0123456789ABCDEF", event_type := "page_view",
    user_id := "USER_0123456789AB", session_id := "SES_0123456789ABCDEF",
    timestamp := 0, properties := .dict, device := some "mobile",
    country := some "US", traffic_source := some "organic",
    product_id := none, category := none, revenue := 0 }

/-- The validated image of `rawValid2`. -/
def evValid2 : EventSchema := { evValid1 with event_id := "EVT_0000000000000002" }

/-- The validated image of `rawValid3`. -/
def evValid3 : EventSchema := { evValid1 with event_id := "EVT_0000000000000003" }

/-- The validated image of `rawValid4`. -/
def evValid4 : EventSchema := { evValid1 with event_id := "EVT_0000000000000004" }

/-- The default pipeline configuration: `min_validity_rate = 95.0`. -/
def cfgDefault : PipelineConfig :=
  { min_validity_rate := defaultMinValidityRate, enable_quality_checks := true }

/-- A storage collaborator accepting every write. -/
def writeAll : String → Bool := fun _ => true

/-- A storage collaborator that accepts the `fct_events` write and fails every
later one. -/
def writeFirstOnly : String → Bool := fun t => t == "fct_events"

/-- One source partition of five records, four valid: validity rate 80%. -/
def partsLowValidity : List (List RawEvent) :=
  [[rawValid1, rawValid2, rawValid3, rawValid4, rawMissingEventId]]

/-- The DataFrame of valid rows of `partsLowValidity`. -/
def vdfLow : List EventSchema := [evValid1, evValid2, evValid3, evValid4]

/-- The `ValidationResult` of `partsLowValidity`. -/
def resLow : ValidationResult := ⟨5, 4, 1, [("ValidationError", 1)]⟩

/-- The collected error samples of `partsLowValidity`. -/
def sampLow : List (String × Nat) := [("ValidationError", 1)]

/-- One source partition holding a single valid record. -/
def partsSingle : List (List RawEvent) := [[rawValid1]]

/-- The `ValidationResult` of `partsSingle`. -/
def resSingle : ValidationResult := ⟨1, 1, 0, []⟩

/-- The open-session state of user U1: session 1, last activity at t = 0. -/
def sessU1 : SessionState := ⟨1, 0, 0, 1⟩

/-- A session mapping with U1 tracked in session 1, last active at t = 0. -/
def activeU1 : List (String × SessionState) := [("U1", sessU1)]

/-- A purchase event of the fixed user and session, at time `t` with revenue
`rev`. -/
def mkPurchaseEv (eid : String) (t : Int) (rev : ℚ) : EventSchema :=
  { event_id := eid, event_type := "purchase", user_id := "USER_0123456789AB",
    session_id := "SES_0123456789ABCDEF", timestamp := t, properties := .dict,
    device := none, country := none, traffic_source := none,
    product_id := none, category := none, revenue := rev }

/-- A sessionized batch whose single session spans midnight: one event late on
day 0 and one early on day 1, 200 seconds apart (the same session under the
30-minute idle rule, and grouped together by their shared `session_id`). -/
def spanRows : List EventSchema :=
  [mkPurchaseEv "EVT_000000000000000A" 86300 10,
   mkPurchaseEv "EVT_000000000000000B" 86500 5]

/-- A sessionized batch whose single session lies within day 0. -/
def sameDayRows : List EventSchema :=
  [mkPurchaseEv "EVT_000000000000000A" 100 10,
   mkPurchaseEv "EVT_000000000000000B" 200 5]

/-- An `add_to_cart` event carrying a product, for a product that receives no
`product_view` event in the batch. -/
def cartOnlyEvent : EventSchema :=
  { event_id := "EVT_0123456789ABCDEF", event_type := "add_to_cart",
    user_id := "USER_0123456789AB", session_id := "SES_0123456789ABCDEF",
    timestamp := 0, properties := .dict, device := none, country := none,
    traffic_source := none, product_id := some "PROD_00000001",
    category := some "Toys", revenue := 0 }

/-- The product grouping key of `cartOnlyEvent`. -/
def cartOnlyKey : String × String := ("PROD_00000001", "Toys")

/-- Decidable equality for results of fallible computations, used to evaluate
the embedding on concrete inputs. -/
instance {ε α : Type} [DecidableEq ε] [DecidableEq α] : DecidableEq (Except ε α)
  | .error e, .error f => decidable_of_iff (e = f) (by simp)
  | .error _, .ok _ => Decidable.isFalse (by simp)
  | .ok _, .error _ => Decidable.isFalse (by simp)
  | .ok a, .ok b => decidable_of_iff (a = b) (by simp)

/-- `addSample` never pushes a per-kind sample count above the cap. -/
theorem addSample_bound (cap : Nat) (k : String) (l : List (String × Nat))
    (h : ∀ p ∈ l, p.2 ≤ cap) : ∀ p ∈ addSample cap k l, p.2 ≤ cap := by
  induction l with
  | nil =>
    intro p hp
    simp only [addSample, List.mem_singleton] at hp
    subst hp
    split <;> omega
  | cons hd tl ih =>
    intro p hp
    have hhd := h hd (List.mem_cons_self _ _)
    have htl : ∀ q ∈ tl, q.2 ≤ cap := fun q hq => h q (List.mem_cons_of_mem _ hq)
    simp only [addSample] at hp
    split at hp
    · rcases List.mem_cons.mp hp with rfl | hmem
      · simp only []
        split <;> omega
      · exact htl _ hmem
    · rcases List.mem_cons.mp hp with rfl | hmem
      · exact hhd
      · exact ih htl _ hmem

/-- `bumpCount` adds exactly one to the total count of the error summary. -/
theorem sumCounts_bumpCount (k : String) (l : List (String × Nat)) :
    sumCounts (bumpCount k l) = sumCounts l + 1 := by
  induction l with
  | nil => simp [bumpCount, sumCounts]
  | cons hd tl ih =>
    simp only [bumpCount]
    split
    · simp [sumCounts]; omega
    · simp only [sumCounts, List.map_cons, List.sum_cons] at ih ⊢
      omega

/-- Invariant of the `validate_events` loop without fail-fast: it never
raises, every record lands in the valid list or the invalid count, the error
summary counts exactly the invalid records, and sample counts stay capped. -/
theorem validateLoop_false_spec (cap : Nat) (df : List RawEvent) (acc : VLoopOut)
    (hs : sumCounts acc.summary = acc.invalid)
    (hb : ∀ p ∈ acc.samples, p.2 ≤ cap) :
    ∃ out, validateLoop false cap df acc = .ok out
      ∧ out.valids.length + out.invalid
          = acc.valids.length + acc.invalid + df.length
      ∧ sumCounts out.summary = out.invalid
      ∧ ∀ p ∈ out.samples, p.2 ≤ cap := by
  induction df generalizing acc with
  | nil => exact ⟨acc, rfl, by simp, hs, hb⟩
  | cons r rest ih =>
    cases hvr : validateRecord r with
    | ok e =>
      obtain ⟨out, heq, h1, h2, h3⟩ :=
        ih { acc with valids := acc.valids ++ [e] } hs hb
      refine ⟨out, ?_, ?_, h2, h3⟩
      · simp only [validateLoop, hvr, heq]
      · simp only [List.length_append, List.length_singleton] at h1
        simp only [List.length_cons]
        omega
    | error k =>
      obtain ⟨out, heq, h1, h2, h3⟩ :=
        ih { acc with invalid := acc.invalid + 1,
                      summary := bumpCount k acc.summary,
                      samples := addSample cap k acc.samples }
          (by simp [sumCounts_bumpCount, hs])
          (addSample_bound cap k acc.samples hb)
      refine ⟨out, ?_, ?_, h2, h3⟩
      · simp only [validateLoop, hvr, heq, Bool.false_eq_true, if_false]
      · simp only [List.length_cons] at h1 ⊢
        omega

/-- Under fail-fast, the `validate_events` loop succeeds exactly when every
record validates. -/
theorem validateLoop_true_ok_iff (cap : Nat) (df : List RawEvent)
    (acc : VLoopOut) :
    (validateLoop true cap df acc).isOk = true
      ↔ ∀ r ∈ df, (validateRecord r).isOk = true := by
  induction df generalizing acc with
  | nil => simp [validateLoop, Except.isOk, Except.toBool]
  | cons r rest ih =>
    cases hvr : validateRecord r with
    | ok e =>
      simp only [validateLoop, hvr]
      rw [ih]
      constructor
      · intro h q hq
        rcases List.mem_cons.mp hq with rfl | hmem
        · simp [hvr, Except.isOk, Except.toBool]
        · exact h q hmem
      · intro h q hq
        exact h q (List.mem_cons_of_mem _ hq)
    | error k =>
      simp only [validateLoop, hvr, if_true]
      constructor
      · intro h
        simp [Except.isOk, Except.toBool] at h
      · intro h
        have := h r (List.mem_cons_self _ _)
        rw [hvr] at this
        simp [Except.isOk, Except.toBool] at this

/-- Claim C9: for every input DataFrame, `validate_events` returns a
`ValidationResult` in which valid plus invalid records equal the total, the
total equals the number of input rows, and the returned DataFrame has exactly
`valid_records` rows. -/
theorem validate_events_conservation (df : List RawEvent) (cap : Nat) :
    ∃ vdf res samples, validate_events df false cap = .ok (vdf, res, samples)
      ∧ res.valid_records + res.invalid_records = res.total_records
      ∧ res.total_records = df.length
      ∧ vdf.length = res.valid_records := by
  obtain ⟨out, heq, h1, h2, h3⟩ :=
    validateLoop_false_spec cap df ⟨[], 0, [], []⟩ (by simp [sumCounts]) (by simp)
  refine ⟨out.valids,
    { total_records := df.length, valid_records := out.valids.length,
      invalid_records := out.invalid, error_summary := out.summary },
    out.samples, ?_, ?_, rfl, rfl⟩
  · simp only [validate_events, heq]
  · simpa using h1

/-- Claim C8: batch validation raises only under fail-fast; by default every
invalid record is isolated and counted in the error summary, at most `cap`
samples are collected per violation kind, and processing covers the whole
batch. Under fail-fast, validation raises exactly when some record fails. -/
theorem validate_events_failfast_policy (df : List RawEvent) (cap : Nat) :
    (∃ vdf res samples, validate_events df false cap = .ok (vdf, res, samples)
        ∧ res.total_records = df.length
        ∧ sumCounts res.error_summary = res.invalid_records
        ∧ ∀ p ∈ samples, p.2 ≤ cap)
    ∧ ((validate_events df true cap).isOk = true
        ↔ ∀ r ∈ df, (validateRecord r).isOk = true) := by
  constructor
  · obtain ⟨out, heq, h1, h2, h3⟩ :=
      validateLoop_false_spec cap df ⟨[], 0, [], []⟩ (by simp [sumCounts]) (by simp)
    exact ⟨out.valids,
      { total_records := df.length, valid_records := out.valids.length,
        invalid_records := out.invalid, error_summary := out.summary },
      out.samples, by simp only [validate_events, heq], rfl, h2, h3⟩
  · rw [← validateLoop_true_ok_iff cap df ⟨[], 0, [], []⟩]
    unfold validate_events
    cases h : validateLoop true cap df ⟨[], 0, [], []⟩ <;>
      simp [Except.isOk, Except.toBool]

/-- Witness for C8: with fail-fast enabled and the default five samples, a
batch holding one bad record makes validation raise. -/
theorem validate_events_failfast_policy_witness :
    (validate_events [rawMissingEventId] true 5).isOk = false := by
  have h := (validate_events_failfast_policy [rawMissingEventId] 5).2
  cases hok : (validate_events [rawMissingEventId] true 5).isOk with
  | false => rfl
  | true =>
    have hall := h.mp hok
    have hone := hall rawMissingEventId (List.mem_singleton.mpr rfl)
    rw [show validateRecord rawMissingEventId = .error "ValidationError" from by
          with_unfolding_all decide] at hone
    simp [Except.isOk, Except.toBool] at hone

/-- Claim C6: `validity_rate` equals `valid / total * 100` when the batch is
non-empty and 0 when it is empty. -/
theorem validity_rate_formula (r : ValidationResult) :
    (0 < r.total_records →
        r.validity_rate = (r.valid_records : ℚ) / (r.total_records : ℚ) * 100)
    ∧ (r.total_records = 0 → r.validity_rate = 0) := by
  constructor
  · intro h
    unfold ValidationResult.validity_rate
    rw [if_neg (by omega)]
  · intro h
    unfold ValidationResult.validity_rate
    rw [if_pos h]

/-- Witness for C6: a batch of 4 records with 3 valid has rate 75. -/
theorem validity_rate_formula_witness :
    0 < (ValidationResult.mk 4 3 1 []).total_records
    ∧ (ValidationResult.mk 4 3 1 []).validity_rate = 75 := by
  refine ⟨by decide, ?_⟩
  rw [(validity_rate_formula ⟨4, 3, 1, []⟩).1 (by decide)]
  norm_num

/-- Counterexample to C1 as stated: with the default 30-minute timeout, user
U1 is tracked in session 1 with last activity t = 0; an event at t = 1800 has
a gap exactly equal to the timeout, which does not exceed it, yet the rule
assigns the fresh session identifier 2 instead of attaching to session 1. -/
theorem sessionization_boundary_counterexample :
    (1800 : Int) - sessU1.last_activity = sessionTimeoutMinutesDefault * 60
    ∧ ¬ ((1800 : Int) - sessU1.last_activity > sessionTimeoutMinutesDefault * 60)
    ∧ (getOrCreateSession sessionTimeoutMinutesDefault activeU1 "U1" 1800 2).1 = 2
    ∧ sessU1.session_id = 1 := by
  with_unfolding_all decide

/-- Claim C1, amended: for an event of a user with a tracked session, the rule
starts a new session if and only if the gap to the last activity is greater
than or equal to `timeoutMinutes * 60` seconds; a gap exactly equal to the
timeout starts a new session (the attach condition is a strict `<`). -/
theorem sessionization_boundary (timeoutMinutes : Int)
    (active : List (String × SessionState)) (uid : String) (t : Int)
    (fresh : Nat) (s : SessionState)
    (hs : lookupSession uid active = some s) (hf : fresh ≠ s.session_id) :
    ((getOrCreateSession timeoutMinutes active uid t fresh).1 ≠ s.session_id
      ↔ timeoutMinutes * 60 ≤ t - s.last_activity) := by
  simp only [getOrCreateSession, hs]
  split_ifs with hlt
  · exact iff_of_false (by simp) (by omega)
  · exact iff_of_true hf (by omega)

/-- Witness for amended C1 at a concrete state: user U1 in session 1, next
event 1799 seconds later, fresh identifier 2. -/
theorem sessionization_boundary_witness :
    ((getOrCreateSession 30 activeU1 "U1" 1799 2).1 ≠ sessU1.session_id
      ↔ (30 : Int) * 60 ≤ 1799 - sessU1.last_activity) :=
  sessionization_boundary 30 activeU1 "U1" 1799 2 sessU1
    (by with_unfolding_all decide) (by decide)

/-- Counterexample to C5 as stated: `rawValid1` carries a `session_id` and
passes validation (the claim says it must be rejected), while `rawNoSession`,
identical except for lacking `session_id`, is rejected (the claim says such a
record can still pass). -/
theorem session_id_counterexample :
    rawValid1.session_id = some "SES_0123456789ABCDEF"
    ∧ (validateRecord rawValid1).isOk = true
    ∧ rawNoSession.session_id = none
    ∧ (validateRecord rawNoSession).isOk = false := by
  with_unfolding_all decide

/-- Claim C5, amended: the Validator requires `session_id` on input: every
record that passes validation carries a `session_id` matching the `SES_`
pattern, and a record lacking `session_id` is always rejected. -/
theorem session_id_required (r : RawEvent) :
    ((validateRecord r).isOk = true →
        ∃ s, r.session_id = some s ∧ idShaped "SES_" 16 s = true)
    ∧ (r.session_id = none → (validateRecord r).isOk = false) := by
  have main : (validateRecord r).isOk = true →
      ∃ s, r.session_id = some s ∧ idShaped "SES_" 16 s = true := by
    intro h
    unfold validateRecord at h
    split at h
    · rename_i eid ety uid sid tsi pin heq1 heq2 heq3 heq4 heq5 heq6
      split at h
      · split at h
        · rename_i hcond
          simp only [Bool.and_eq_true] at hcond
          obtain ⟨⟨⟨⟨⟨⟨⟨⟨⟨⟨⟨⟨⟨⟨hEvt, hLe20⟩, hLe24⟩, hTy⟩, hUser⟩, hULen⟩,
            hSes⟩, hSLe20⟩, hSLe24⟩, hProps⟩, hDev⟩, hCtry⟩, hSrc⟩, hProd⟩,
            hRev⟩ := hcond
          exact ⟨sid, heq4, hSes⟩
        · simp [Except.isOk, Except.toBool] at h
      · simp [Except.isOk, Except.toBool] at h
    · simp [Except.isOk, Except.toBool] at h
  refine ⟨main, ?_⟩
  intro hnone
  cases hok : (validateRecord r).isOk with
  | false => rfl
  | true =>
    obtain ⟨s, hs, _⟩ := main hok
    rw [hnone] at hs
    exact Option.noConfusion hs

/-- Witness for amended C5 at `rawValid1`: its session identifier is present
and matches the pattern. -/
theorem session_id_required_witness :
    rawValid1.session_id ≠ none
    ∧ idShaped "SES_" 16 "SES_0123456789ABCDEF" = true := by
  obtain ⟨s, hs, hi⟩ :=
    (session_id_required rawValid1).1 (by with_unfolding_all decide)
  have hid : rawValid1.session_id = some "SES_0123456789ABCDEF" := by
    with_unfolding_all decide
  refine ⟨by rw [hid]; simp, ?_⟩
  rw [hid] at hs
  rw [show ("SES_0123456789ABCDEF" : String) = s from Option.some_inj.mp hs]
  exact hi

/-- Claim C2: when the batch validity rate is strictly below the configured
minimum, the run fails with the threshold-breach error, the transform and load
stages never execute, and no output table is written. -/
theorem threshold_gate (cfg : PipelineConfig) (writeOk : String → Bool)
    (parts : List (List RawEvent)) (vdf : List EventSchema)
    (res : ValidationResult) (samples : List (String × Nat))
    (hne : parts.isEmpty = false)
    (hval : validate_events parts.flatten false 5 = .ok (vdf, res, samples))
    (hlt : res.validity_rate < cfg.min_validity_rate) :
    (ETLPipeline.run cfg writeOk parts).success = false
    ∧ (ETLPipeline.run cfg writeOk parts).errors = [thresholdBreachMsg]
    ∧ (ETLPipeline.run cfg writeOk parts).written_tables = []
    ∧ "transform" ∉ (ETLPipeline.run cfg writeOk parts).stages
    ∧ "load" ∉ (ETLPipeline.run cfg writeOk parts).stages := by
  have hrun : ETLPipeline.run cfg writeOk parts =
      { success := false, stages := ["extract", "validate"],
        errors := [thresholdBreachMsg], written_tables := [],
        records_extracted := parts.flatten.length,
        records_validated := res.valid_records,
        validity_rate := res.validity_rate, records_loaded := 0 } := by
    simp only [ETLPipeline.run, hne, Bool.false_eq_true, if_false, hval]
    rw [if_pos hlt]
  rw [hrun]
  refine ⟨rfl, rfl, rfl, ?_, ?_⟩
  · show ("transform" : String) ∉ ["extract", "validate"]
    decide
  · show ("load" : String) ∉ ["extract", "validate"]
    decide

/-- Witness for C2: with the default 95.0 threshold and a batch of five
records of which four validate (rate 80), the run fails with the
threshold-breach error, writes nothing, and never reaches transform or load. -/
theorem threshold_gate_witness :
    (ETLPipeline.run cfgDefault writeAll partsLowValidity).success = false
    ∧ (ETLPipeline.run cfgDefault writeAll partsLowValidity).errors
        = [thresholdBreachMsg]
    ∧ (ETLPipeline.run cfgDefault writeAll partsLowValidity).written_tables = []
    ∧ "transform" ∉ (ETLPipeline.run cfgDefault writeAll partsLowValidity).stages
    ∧ "load" ∉ (ETLPipeline.run cfgDefault writeAll partsLowValidity).stages :=
  threshold_gate cfgDefault writeAll partsLowValidity vdfLow resLow sampLow
    (by decide) (by with_unfolding_all decide) (by with_unfolding_all decide)

/-- When some table write fails, the load loop reports the failure and the
committed tables are exactly the longest successful prefix. -/
theorem loadTables_fail (writeOk : String → Bool) (ts : List String)
    (h : ∃ t ∈ ts, writeOk t = false) :
    (loadTables writeOk ts).2 ≠ none
    ∧ (loadTables writeOk ts).1 = ts.takeWhile writeOk := by
  induction ts with
  | nil => simp at h
  | cons t ts ih =>
    by_cases hw : writeOk t = true
    · have h' : ∃ u ∈ ts, writeOk u = false := by
        obtain ⟨u, hu, hfu⟩ := h
        rcases List.mem_cons.mp hu with rfl | hmem
        · rw [hw] at hfu; cases hfu
        · exact ⟨u, hmem, hfu⟩
      obtain ⟨h1, h2⟩ := ih h'
      refine ⟨?_, ?_⟩
      · simpa only [loadTables, hw, if_true] using h1
      · simp only [loadTables, hw, if_true, List.takeWhile_cons, h2]
    · rw [Bool.not_eq_true] at hw
      refine ⟨?_, ?_⟩
      · simp [loadTables, hw]
      · simp [loadTables, hw, List.takeWhile_cons]

/-- Counterexample to C4 as stated: with a storage collaborator that accepts
the `fct_events` write and fails the next one, the run reports failure, yet
`fct_events` remains committed under its final name while the remaining tables
are missing — a partial table set is left addressable. -/
theorem load_atomicity_counterexample :
    (ETLPipeline.run cfgDefault writeFirstOnly partsSingle).success = false
    ∧ (ETLPipeline.run cfgDefault writeFirstOnly partsSingle).written_tables
        = ["fct_events"]
    ∧ tableNames [evValid1]
        = ["fct_events", "fct_sessions", "fct_daily_metrics"] := by
  with_unfolding_all decide

/-- Claim C4, amended: if any individual table write fails, the run reports
failure with the error recorded, but the load is not all-or-nothing: the
tables written before the failing one stay committed under their final names
(the committed set is the longest prefix of table names the storage accepted). -/
theorem load_failure_partial_commit (cfg : PipelineConfig)
    (writeOk : String → Bool) (parts : List (List RawEvent))
    (vdf : List EventSchema) (res : ValidationResult)
    (samples : List (String × Nat))
    (hne : parts.isEmpty = false)
    (hval : validate_events parts.flatten false 5 = .ok (vdf, res, samples))
    (hge : ¬ res.validity_rate < cfg.min_validity_rate)
    (hfail : ∃ t ∈ tableNames vdf, writeOk t = false) :
    (ETLPipeline.run cfg writeOk parts).success = false
    ∧ (ETLPipeline.run cfg writeOk parts).errors ≠ []
    ∧ (ETLPipeline.run cfg writeOk parts).written_tables
        = (tableNames vdf).takeWhile writeOk := by
  obtain ⟨hsome, hpre⟩ := loadTables_fail writeOk (tableNames vdf) hfail
  cases hl : loadTables writeOk (tableNames vdf) with
  | mk w err =>
    rw [hl] at hsome hpre
    cases err with
    | none => simp at hsome
    | some m =>
      have hrun : ETLPipeline.run cfg writeOk parts =
          { success := false,
            stages := ["extract", "validate", "quality", "transform", "load"],
            errors := [m], written_tables := w,
            records_extracted := parts.flatten.length,
            records_validated := res.valid_records,
            validity_rate := res.validity_rate, records_loaded := 0 } := by
        simp only [ETLPipeline.run, hne, Bool.false_eq_true, if_false, hval]
        rw [if_neg hge, hl]
      rw [hrun]
      exact ⟨rfl, by simp, hpre⟩

/-- Witness for amended C4 at the concrete failing storage collaborator. -/
theorem load_failure_partial_commit_witness :
    (ETLPipeline.run cfgDefault writeFirstOnly partsSingle).success = false
    ∧ (ETLPipeline.run cfgDefault writeFirstOnly partsSingle).errors ≠ []
    ∧ (ETLPipeline.run cfgDefault writeFirstOnly partsSingle).written_tables
        = (tableNames [evValid1]).takeWhile writeFirstOnly :=
  load_failure_partial_commit cfgDefault writeFirstOnly partsSingle [evValid1]
    resSingle [] (by decide) (by with_unfolding_all decide)
    (by with_unfolding_all decide) (by with_unfolding_all decide)

/-- Claim C10: the transform stage mutates the validated DataFrame it
receives: the frame handed over by validation has no `event_date` column, and
the state of that object after `_transform` has one, so the caller's validated
batch is changed in place. -/
theorem transform_mutates_frame (rows : List EventSchema) :
    "event_date" ∉ (validatedDF rows).cols
    ∧ "event_date" ∈ (ETLPipeline.transformDF (validatedDF rows)).2.cols
    ∧ (ETLPipeline.transformDF (validatedDF rows)).2 ≠ validatedDF rows := by
  have hts : ("timestamp" : String) ∈ eventSchemaCols := by decide
  have hed : ("event_date" : String) ∉ eventSchemaCols := by decide
  refine ⟨hed, ?_, ?_⟩
  · simp [ETLPipeline.transformDF, setCol, validatedDF, hts, hed]
  · intro hcontra
    have hcols := congrArg DataFrame.cols hcontra
    simp only [ETLPipeline.transformDF, setCol, validatedDF] at hcols
    rw [if_pos hts] at hcols
    rw [if_neg hed] at hcols
    have hlen := congrArg List.length hcols
    simp at hlen

/-- Witness for C10 at the empty validated frame. -/
theorem transform_mutates_frame_witness :
    "event_date" ∉ (validatedDF []).cols
    ∧ "event_date" ∈ (ETLPipeline.transformDF (validatedDF [])).2.cols
    ∧ (ETLPipeline.transformDF (validatedDF [])).2 ≠ validatedDF [] :=
  transform_mutates_frame []

/-- Summing a one-hot function over a duplicate-free list that contains its
key yields the value at the key. -/
theorem sum_map_ite_eq_of_mem {κ : Type} [DecidableEq κ] (ks : List κ) (k0 : κ)
    (hnd : ks.Nodup) (hmem : k0 ∈ ks) (c : ℚ) :
    (ks.map (fun k => if k0 = k then c else 0)).sum = c := by
  induction ks with
  | nil => simp at hmem
  | cons a ks ih =>
    rw [List.nodup_cons] at hnd
    rcases List.mem_cons.mp hmem with rfl | h
    · simp only [List.map_cons, List.sum_cons, if_pos rfl]
      have hz : (ks.map (fun k => if k0 = k then c else 0)).sum = 0 := by
        apply List.sum_eq_zero
        intro x hx
        obtain ⟨k, hk, rfl⟩ := List.mem_map.mp hx
        rw [if_neg]
        rintro rfl
        exact hnd.1 hk
      rw [hz, add_zero, if_pos trivial]
    · have hne : k0 ≠ a := by rintro rfl; exact hnd.1 h
      simp only [List.map_cons, List.sum_cons, if_neg hne]
      rw [ih hnd.2 h, zero_add]

/-- Summing a pointwise sum splits into two sums. -/
theorem sum_map_add_split {κ : Type} (ks : List κ) (f g : κ → ℚ) :
    (ks.map (fun k => f k + g k)).sum = (ks.map f).sum + (ks.map g).sum := by
  induction ks with
  | nil => simp
  | cons a ks ih =>
    simp only [List.map_cons, List.sum_cons, ih]
    ring

/-- Fiberwise summation: summing a filtered quantity over each group of a
grouping key whose values all occur in a duplicate-free key list equals
summing it over the whole batch. -/
theorem sum_fiber {α κ : Type} [DecidableEq κ] (f : α → κ) (g : α → ℚ)
    (p : α → Bool) (rows : List α) (ks : List κ)
    (hnd : ks.Nodup) (hmem : ∀ e ∈ rows, f e ∈ ks) :
    (ks.map (fun k =>
        ((rows.filter (fun e => decide (f e = k) && p e)).map g).sum)).sum
      = ((rows.filter p).map g).sum := by
  induction rows with
  | nil => simp
  | cons a rows ih =>
    have hmem' : ∀ e ∈ rows, f e ∈ ks :=
      fun e he => hmem e (List.mem_cons_of_mem _ he)
    have key : ∀ k : κ,
        ((List.filter (fun e => decide (f e = k) && p e) (a :: rows)).map g).sum
          = (if (decide (f a = k) && p a) = true then g a else 0)
            + ((rows.filter (fun e => decide (f e = k) && p e)).map g).sum := by
      intro k
      rw [List.filter_cons]
      split
      · simp only [List.map_cons, List.sum_cons]
      · rw [zero_add]
    have hsplit :
        (ks.map (fun k =>
            ((List.filter (fun e => decide (f e = k) && p e) (a :: rows)).map
              g).sum)).sum
          = (ks.map (fun k =>
                if (decide (f a = k) && p a) = true then g a else 0)).sum
            + (ks.map (fun k =>
                ((rows.filter (fun e => decide (f e = k) && p e)).map
                  g).sum)).sum := by
      rw [← sum_map_add_split]
      exact congrArg List.sum (List.map_congr_left (fun k _ => key k))
    rw [hsplit, ih hmem', List.filter_cons]
    by_cases hp : p a = true
    · have hfirst :
          (ks.map (fun k =>
              if (decide (f a = k) && p a) = true then g a else 0)).sum
            = g a := by
        have heq : ∀ k ∈ ks,
            (if (decide (f a = k) && p a) = true then g a else 0)
              = (if f a = k then g a else 0) := by
          intro k _
          simp [hp, decide_eq_true_eq]
        rw [List.map_congr_left heq]
        exact sum_map_ite_eq_of_mem ks (f a) hnd
          (hmem a (List.mem_cons_self _ _)) (g a)
      rw [hfirst, hp, if_pos rfl]
      simp only [List.map_cons, List.sum_cons]
    · rw [Bool.not_eq_true] at hp
      have hfirst :
          (ks.map (fun k =>
              if (decide (f a = k) && p a) = true then g a else 0)).sum = 0 := by
        apply List.sum_eq_zero
        intro x hx
        obtain ⟨k, _, rfl⟩ := List.mem_map.mp hx
        simp [hp]
      rw [hfirst, hp, zero_add]
      simp

/-- Filtering then summing over the image of a map equals summing the guarded
quantity over the preimage list. -/
theorem sum_map_filter_map {κ β : Type} (l : List κ) (f : κ → β) (p : β → Bool)
    (g : β → ℚ) :
    (((l.map f).filter p).map g).sum
      = (l.map (fun k => if p (f k) = true then g (f k) else 0)).sum := by
  induction l with
  | nil => simp
  | cons a l ih =>
    simp only [List.map_cons, List.filter_cons]
    split
    · simp only [List.map_cons, List.sum_cons, ih]
    · rw [ih, List.sum_cons, zero_add]

/-- Counterexample to C3 as stated: `spanRows` is a batch whose single session
starts late on day 0 (revenue 10) and ends early on day 1 (revenue 5).
`fct_daily_metrics` books 10 to day 0 and 5 to day 1, while the sessions
starting on day 0 carry total revenue 15, so the reconciliation fails on
day 0. -/
theorem revenue_reconciliation_counterexample :
    (fct_daily_metrics spanRows).map
        (fun drow => (drow.event_date, drow.total_revenue))
      = [(0, 10), (1, 5)]
    ∧ sessionsRevenueOn spanRows 0 = 15
    ∧ ¬ ((15 : ℚ) = 10) := by
  with_unfolding_all decide

/-- Claim C3, amended: `fct_daily_metrics.total_revenue` groups event revenue
by each event's own date, so the reconciliation with session revenue grouped
by session-start date holds for every date of the batch provided every
session's events fall on the session start date (no session spans a calendar
day boundary); a session spanning midnight breaks it. -/
theorem revenue_reconciliation (rows : List EventSchema)
    (hsame : ∀ k ∈ sessionKeys rows, ∀ e ∈ sessionGroup rows k,
        eventDate e.timestamp = sessionStartDate rows k) :
    ∀ drow ∈ fct_daily_metrics rows,
      sessionsRevenueOn rows drow.event_date = drow.total_revenue := by
  intro drow hdrow
  obtain ⟨d, hd, rfl⟩ := List.mem_map.mp hdrow
  show sessionsRevenueOn rows d = sumRevenue (dailyGroup rows d)
  unfold sessionsRevenueOn fct_sessions
  rw [sum_map_filter_map]
  have hstep : ∀ k ∈ sessionKeys rows,
      (if decide (eventDate (mkSessionRow k (sessionGroup rows k)).session_start
              = d) = true
        then (mkSessionRow k (sessionGroup rows k)).total_revenue else 0)
        = ((rows.filter (fun e => decide (sessionKey e = k)
              && decide (eventDate e.timestamp = d))).map
            (fun e => e.revenue)).sum := by
    intro k hk
    by_cases hsd : sessionStartDate rows k = d
    · rw [if_pos (by exact decide_eq_true hsd)]
      show sumRevenue (sessionGroup rows k) = _
      unfold sumRevenue sessionGroup
      have hfc : rows.filter (fun e => decide (sessionKey e = k)
            && decide (eventDate e.timestamp = d))
          = rows.filter (fun e => decide (sessionKey e = k)) := by
        apply List.filter_congr
        intro e he
        by_cases hke : sessionKey e = k
        · have hemem : e ∈ sessionGroup rows k := by
            unfold sessionGroup
            rw [List.mem_filter]
            exact ⟨he, decide_eq_true hke⟩
          have hdate := hsame k hk e hemem
          rw [hsd] at hdate
          simp [hke, hdate]
        · simp [hke]
      rw [hfc]
    · rw [if_neg]
      · have hempty : rows.filter (fun e => decide (sessionKey e = k)
              && decide (eventDate e.timestamp = d)) = [] := by
          rw [List.filter_eq_nil_iff]
          intro e he
          by_cases hke : sessionKey e = k
          · have hemem : e ∈ sessionGroup rows k := by
              unfold sessionGroup
              rw [List.mem_filter]
              exact ⟨he, decide_eq_true hke⟩
            have hdate := hsame k hk e hemem
            simp [hke, hdate, hsd]
          · simp [hke]
        rw [hempty]
        simp
      · simp only [decide_eq_true_eq]
        exact hsd
  rw [List.map_congr_left hstep]
  rw [sum_fiber sessionKey (fun e => e.revenue)
        (fun e => decide (eventDate e.timestamp = d)) rows (sessionKeys rows)
        (List.nodup_dedup _)
        (fun e he => List.mem_dedup.mpr (List.mem_map_of_mem _ he))]
  rfl

/-- Witness for amended C3: a batch whose single session lies entirely within
day 0 reconciles session revenue with daily revenue for that day. -/
theorem revenue_reconciliation_witness :
    sessionsRevenueOn sameDayRows 0
      = (mkDailyRow 0 (dailyGroup sameDayRows 0)).total_revenue :=
  revenue_reconciliation sameDayRows (by with_unfolding_all decide)
    (mkDailyRow 0 (dailyGroup sameDayRows 0)) (by with_unfolding_all decide)

/-- Counterexample to C7 as stated: a batch with one `add_to_cart` event for a
product with no `product_view` yields a product row whose natural denominator
`view_count` is 0, yet `cart_rate` resolves to 1 (the count of cart adds
divided by the substituted 1), not to 0. -/
theorem ratio_zero_denominator_counterexample :
    fct_product_performance [cartOnlyEvent]
      = some [mkProductRow cartOnlyKey [cartOnlyEvent]]
    ∧ (mkProductRow cartOnlyKey [cartOnlyEvent]).view_count = 0
    ∧ (mkProductRow cartOnlyKey [cartOnlyEvent]).cart_rate = some 1
    ∧ ¬ (mkProductRow cartOnlyKey [cartOnlyEvent]).cart_rate = some 0 := by
  with_unfolding_all decide

/-- A pandas division with a non-zero denominator is finite. -/
theorem pdDiv_isSome (a b : ℚ) (h : b ≠ 0) : (pdDiv a b).isSome = true := by
  unfold pdDiv
  rw [if_neg h]
  rfl

/-- The distinct count of a column with a member is a non-zero rational. -/
theorem nonempty_dedup_len_ne {l : List String} (x : String) (hx : x ∈ l) :
    ((l.dedup.length : Nat) : ℚ) ≠ 0 := by
  have hmem : x ∈ l.dedup := List.mem_dedup.mpr hx
  have hne : l.dedup ≠ [] := by
    intro h
    rw [h] at hmem
    exact (List.not_mem_nil x) hmem
  have hlen : l.dedup.length ≠ 0 := by
    intro h
    exact hne (List.length_eq_zero.mp h)
  exact Nat.cast_ne_zero.mpr hlen

/-- The substituted view count is a non-zero rational. -/
theorem replace0_cast_ne_zero (n : Nat) : ((replace0 n : Nat) : ℚ) ≠ 0 := by
  unfold replace0
  split
  · norm_num
  · rename_i h
    exact Nat.cast_ne_zero.mpr h

/-- Claim C7, amended: every rate on every emitted row is finite —
`conversion_rate` and `avg_revenue_per_user` divide by the distinct session
and user counts of a non-empty date group, which are never zero, and
`cart_rate` / `purchase_rate` divide by the view count with 0 substituted by
1. But a zero denominator does not resolve the ratio to 0: when `view_count`
is 0, `cart_rate` and `purchase_rate` equal the cart-add and purchase counts
themselves. -/
theorem ratio_finiteness (rows : List EventSchema) :
    (∀ drow ∈ fct_daily_metrics rows,
        drow.conversion_rate.isSome = true
          ∧ drow.avg_revenue_per_user.isSome = true)
    ∧ (∀ tbl, fct_product_performance rows = some tbl →
        ∀ prow ∈ tbl,
          prow.cart_rate.isSome = true ∧ prow.purchase_rate.isSome = true
            ∧ (prow.view_count = 0 →
                prow.cart_rate = some (prow.cart_adds : ℚ)
                  ∧ prow.purchase_rate = some (prow.purchases : ℚ))) := by
  constructor
  · intro drow hdrow
    obtain ⟨d, hd, rfl⟩ := List.mem_map.mp hdrow
    have hd' : d ∈ (rows.map (fun e => eventDate e.timestamp)).dedup := hd
    rw [List.mem_dedup] at hd'
    obtain ⟨e, he, hdate⟩ := List.mem_map.mp hd'
    have hgrp : e ∈ dailyGroup rows d := by
      unfold dailyGroup
      rw [List.mem_filter]
      exact ⟨he, decide_eq_true hdate⟩
    constructor
    · exact pdDiv_isSome _ _
        (nonempty_dedup_len_ne e.session_id (List.mem_map_of_mem _ hgrp))
    · exact pdDiv_isSome _ _
        (nonempty_dedup_len_ne e.user_id (List.mem_map_of_mem _ hgrp))
  · intro tbl htbl prow hprow
    unfold fct_product_performance at htbl
    split at htbl
    · rw [Option.some.injEq] at htbl
      subst htbl
      obtain ⟨k, hk, rfl⟩ := List.mem_map.mp hprow
      refine ⟨pdDiv_isSome _ _ (replace0_cast_ne_zero _),
              pdDiv_isSome _ _ (replace0_cast_ne_zero _), ?_⟩
      intro hv
      have hv' : countType "product_view" (productGroup rows k) = 0 := hv
      constructor
      · show pdDiv _ _ = _
        rw [hv']
        norm_num [pdDiv, replace0]
        rfl
      · show pdDiv _ _ = _
        rw [hv']
        norm_num [pdDiv, replace0]
        rfl
    · exact Option.noConfusion htbl

/-- Witness for amended C7 at the cart-only batch: the product row has zero
views and its cart rate equals its cart-add count. -/
theorem ratio_finiteness_witness :
    (mkProductRow cartOnlyKey
        (productGroup [cartOnlyEvent] cartOnlyKey)).view_count = 0
    ∧ (mkProductRow cartOnlyKey
          (productGroup [cartOnlyEvent] cartOnlyKey)).cart_rate
        = some ((mkProductRow cartOnlyKey
            (productGroup [cartOnlyEvent] cartOnlyKey)).cart_adds : ℚ) := by
  refine ⟨by with_unfolding_all decide, ?_⟩
  have h := ((ratio_finiteness [cartOnlyEvent]).2
      ((productKeys [cartOnlyEvent]).map
        (fun k => mkProductRow k (productGroup [cartOnlyEvent] k)))
      (by with_unfolding_all decide)
      (mkProductRow cartOnlyKey (productGroup [cartOnlyEvent] cartOnlyKey))
      (by with_unfolding_all decide))
  exact (h.2.2 (by with_unfolding_all decide)).1
